import Mathlib

/-!
# Verification of the ok-computer-mcp server core

Shallow embedding of the in-memory state-management and metrics layer of the
ok-computer-mcp MCP server, together with proofs about the properties its
specification states.  Dynamic JavaScript values are embedded as an inductive
`JSValue`; JS numbers are modelled as rationals; mutating handlers are
translated to explicit state-passing functions; code that can throw returns
`Except`.
-/

namespace OkComputer

/-- A dynamic JavaScript value as it appears in sanitized JSON-RPC tool
arguments: `undefined`, `null`, booleans, numbers (modelled as `ℚ`),
strings, arrays and plain objects (ordered own-property lists). -/
inductive JSValue where
  | vUndefined : JSValue
  | vNull : JSValue
  | vBool (b : Bool) : JSValue
  | vNum (q : ℚ) : JSValue
  | vStr (s : String) : JSValue
  | vArr (elems : List JSValue) : JSValue
  | vObj (fields : List (String × JSValue)) : JSValue
deriving Repr

/-- JavaScript truthiness (`if (x)`).  `undefined`, `null`, `false`, `0` and
the empty string are falsy; arrays and objects are always truthy. -/
def truthy : JSValue → Bool
  | .vUndefined => false
  | .vNull => false
  | .vBool b => b
  | .vNum q => q != 0
  | .vStr s => s != ""
  | .vArr _ => true
  | .vObj _ => true

/-- JavaScript `typeof` as a string (`typeof null` is `"object"`). -/
def typeofStr : JSValue → String
  | .vUndefined => "undefined"
  | .vNull => "object"
  | .vBool _ => "boolean"
  | .vNum _ => "number"
  | .vStr _ => "string"
  | .vArr _ => "object"
  | .vObj _ => "object"

/-- Property access `v[key]` on a dynamic value: an absent key (or access on a
non-object) yields `undefined`. -/
def getField (v : JSValue) (key : String) : JSValue :=
  match v with
  | .vObj fields => ((fields.lookup key).getD .vUndefined)
  | _ => .vUndefined

/-- The own fields of an object value (`Object.entries`), empty for non-objects. -/
def objFields : JSValue → List (String × JSValue)
  | .vObj fields => fields
  | _ => []

/-- JavaScript `a || b`. -/
def jsOr (a b : JSValue) : JSValue :=
  if truthy a then a else b

/-- From `src/utils/sanitize.ts`: properties that could be used for prototype
pollution attacks. -/
def DANGEROUS_PROPS : List String := ["__proto__", "constructor", "prototype"]

/-- From `src/utils/sanitize.ts`: maximum allowed nesting depth. -/
def MAX_DEPTH : Nat := 10

/-- The error message thrown by `deepSanitize` when the depth cap is exceeded. -/
def depthErrorMsg : String :=
  "Object nesting too deep - possible prototype pollution attack"

mutual

/-- Embedding of `deepSanitize` (`src/utils/sanitize.ts`, identical logic in
the legacy `index.js`): throws (`Except.error`) once `depth > MAX_DEPTH`,
returns scalars unchanged, maps over arrays, and copies objects while
skipping the dangerous keys (their values are not recursed into). -/
def deepSanitize (obj : JSValue) (depth : Nat) : Except String JSValue :=
  if depth > MAX_DEPTH then
    .error depthErrorMsg
  else
    match obj with
    | .vArr elems =>
        match sanitizeElems elems (depth + 1) with
        | .ok elems' => .ok (.vArr elems')
        | .error e => .error e
    | .vObj fields =>
        match sanitizeFields fields (depth + 1) with
        | .ok fields' => .ok (.vObj fields')
        | .error e => .error e
    | x => .ok x

/-- `deepSanitize` mapped over the elements of an array (`obj.map(item => ...)`). -/
def sanitizeElems (elems : List JSValue) (depth : Nat) : Except String (List JSValue) :=
  match elems with
  | [] => .ok []
  | x :: xs =>
      match deepSanitize x depth with
      | .error e => .error e
      | .ok x' =>
          match sanitizeElems xs depth with
          | .error e => .error e
          | .ok xs' => .ok (x' :: xs')

/-- The `for (const [key, value] of Object.entries(obj))` loop of
`deepSanitize`: dangerous keys are dropped (`continue`), other values are
sanitized recursively. -/
def sanitizeFields (fields : List (String × JSValue)) (depth : Nat) :
    Except String (List (String × JSValue)) :=
  match fields with
  | [] => .ok []
  | (k, v) :: rest =>
      if DANGEROUS_PROPS.contains k then
        sanitizeFields rest depth
      else
        match deepSanitize v depth with
        | .error e => .error e
        | .ok v' =>
            match sanitizeFields rest depth with
            | .error e => .error e
            | .ok rest' => .ok ((k, v') :: rest')

end

mutual

/-- Modelled from the spec: the intended result of sanitization — the input
with every occurrence of the keys `__proto__`, `constructor` and `prototype`
removed at every nesting level, including inside array elements, and nothing
else changed. -/
def stripDangerous : JSValue → JSValue
  | .vArr elems => .vArr (stripElems elems)
  | .vObj fields => .vObj (stripFields fields)
  | x => x

/-- `stripDangerous` mapped over array elements. -/
def stripElems : List JSValue → List JSValue
  | [] => []
  | x :: xs => stripDangerous x :: stripElems xs

/-- `stripDangerous` on object fields: dangerous keys are removed wholesale. -/
def stripFields : List (String × JSValue) → List (String × JSValue)
  | [] => []
  | (k, v) :: rest =>
      if DANGEROUS_PROPS.contains k then stripFields rest
      else (k, stripDangerous v) :: stripFields rest

end

mutual

/-- Structural nesting depth of a value: 0 for scalars and empty
arrays/objects, one more than the deepest child otherwise. -/
def depthOf : JSValue → Nat
  | .vArr elems => depthOfElems elems
  | .vObj fields => depthOfFields fields
  | _ => 0

/-- Maximum over `depthOf x + 1` for elements `x` of an array. -/
def depthOfElems : List JSValue → Nat
  | [] => 0
  | x :: xs => max (depthOf x + 1) (depthOfElems xs)

/-- Maximum over `depthOf v + 1` for field values `v` of an object. -/
def depthOfFields : List (String × JSValue) → Nat
  | [] => 0
  | (_, v) :: rest => max (depthOf v + 1) (depthOfFields rest)

end

mutual

/-- The nesting depth actually visited by `deepSanitize`: like `depthOf`, but
subtrees under a dangerous key are ignored, because `deepSanitize` drops them
without recursing into them. -/
def effDepth : JSValue → Nat
  | .vArr elems => effDepthElems elems
  | .vObj fields => effDepthFields fields
  | _ => 0

/-- `effDepth` over array elements. -/
def effDepthElems : List JSValue → Nat
  | [] => 0
  | x :: xs => max (effDepth x + 1) (effDepthElems xs)

/-- `effDepth` over object fields, skipping dangerous keys. -/
def effDepthFields : List (String × JSValue) → Nat
  | [] => 0
  | (k, v) :: rest =>
      if DANGEROUS_PROPS.contains k then effDepthFields rest
      else max (effDepth v + 1) (effDepthFields rest)

end

theorem effDepth_arr (elems : List JSValue) :
    effDepth (.vArr elems) = effDepthElems elems := by
  simp [effDepth]

theorem effDepth_obj (fields : List (String × JSValue)) :
    effDepth (.vObj fields) = effDepthFields fields := by
  simp [effDepth]

mutual

theorem deepSanitize_ok (v : JSValue) (d : Nat) (h : d + effDepth v ≤ MAX_DEPTH) :
    deepSanitize v d = .ok (stripDangerous v) := by
  have hd : ¬ d > MAX_DEPTH := by omega
  cases v with
  | vArr elems =>
      have h' : (d + 1) + effDepthElems elems ≤ MAX_DEPTH + 1 := by
        have := effDepth_arr elems
        omega
      simp [deepSanitize, stripDangerous, hd, sanitizeElems_ok elems (d + 1) h']
  | vObj fields =>
      have h' : (d + 1) + effDepthFields fields ≤ MAX_DEPTH + 1 := by
        have := effDepth_obj fields
        omega
      simp [deepSanitize, stripDangerous, hd, sanitizeFields_ok fields (d + 1) h']
  | vUndefined => simp [deepSanitize, stripDangerous, hd]
  | vNull => simp [deepSanitize, stripDangerous, hd]
  | vBool b => simp [deepSanitize, stripDangerous, hd]
  | vNum q => simp [deepSanitize, stripDangerous, hd]
  | vStr s => simp [deepSanitize, stripDangerous, hd]

theorem sanitizeElems_ok (xs : List JSValue) (d : Nat)
    (h : d + effDepthElems xs ≤ MAX_DEPTH + 1) :
    sanitizeElems xs d = .ok (stripElems xs) := by
  cases xs with
  | nil => rfl
  | cons x rest =>
      have hsplit : effDepthElems (x :: rest) = max (effDepth x + 1) (effDepthElems rest) := rfl
      have hx : d + effDepth x ≤ MAX_DEPTH := by omega
      have hrest : d + effDepthElems rest ≤ MAX_DEPTH + 1 := by omega
      simp [sanitizeElems, stripElems, deepSanitize_ok x d hx, sanitizeElems_ok rest d hrest]

theorem sanitizeFields_ok (fs : List (String × JSValue)) (d : Nat)
    (h : d + effDepthFields fs ≤ MAX_DEPTH + 1) :
    sanitizeFields fs d = .ok (stripFields fs) := by
  cases fs with
  | nil => rfl
  | cons kv rest =>
      obtain ⟨k, v⟩ := kv
      by_cases hk : k ∈ DANGEROUS_PROPS
      · have hkb : DANGEROUS_PROPS.contains k = true := by simpa using hk
        have hrest : d + effDepthFields rest ≤ MAX_DEPTH + 1 := by
          have : effDepthFields ((k, v) :: rest) = effDepthFields rest := by
            rw [effDepthFields, if_pos hkb]
          omega
        simp [sanitizeFields, stripFields, hk, hkb, sanitizeFields_ok rest d hrest]
      · have hkb : DANGEROUS_PROPS.contains k = false := by simpa using hk
        have hsplit : effDepthFields ((k, v) :: rest)
            = max (effDepth v + 1) (effDepthFields rest) := by
          rw [effDepthFields, if_neg (by simpa using hk)]
        have hv : d + effDepth v ≤ MAX_DEPTH := by omega
        have hrest : d + effDepthFields rest ≤ MAX_DEPTH + 1 := by omega
        simp [sanitizeFields, stripFields, hk, hkb, deepSanitize_ok v d hv,
          sanitizeFields_ok rest d hrest]

end

mutual

theorem deepSanitize_err (v : JSValue) (d : Nat) (h : MAX_DEPTH < d + effDepth v) :
    deepSanitize v d = .error depthErrorMsg := by
  by_cases hd : d > MAX_DEPTH
  · rw [deepSanitize.eq_def, if_pos hd]
  · cases v with
    | vArr elems =>
        have h1 : d + 1 ≤ MAX_DEPTH + 1 := by omega
        have h2 : MAX_DEPTH + 1 < (d + 1) + effDepthElems elems := by
          have := effDepth_arr elems
          omega
        simp [deepSanitize, hd, sanitizeElems_err elems (d + 1) h1 h2]
    | vObj fields =>
        have h1 : d + 1 ≤ MAX_DEPTH + 1 := by omega
        have h2 : MAX_DEPTH + 1 < (d + 1) + effDepthFields fields := by
          have := effDepth_obj fields
          omega
        simp [deepSanitize, hd, sanitizeFields_err fields (d + 1) h1 h2]
    | vUndefined => simp [effDepth] at h; omega
    | vNull => simp [effDepth] at h; omega
    | vBool b => simp [effDepth] at h; omega
    | vNum q => simp [effDepth] at h; omega
    | vStr s => simp [effDepth] at h; omega

theorem sanitizeElems_err (xs : List JSValue) (d : Nat) (hle : d ≤ MAX_DEPTH + 1)
    (h : MAX_DEPTH + 1 < d + effDepthElems xs) :
    sanitizeElems xs d = .error depthErrorMsg := by
  cases xs with
  | nil => simp [effDepthElems] at h; omega
  | cons x rest =>
      have hsplit : effDepthElems (x :: rest) = max (effDepth x + 1) (effDepthElems rest) := rfl
      by_cases hx : MAX_DEPTH < d + effDepth x
      · simp [sanitizeElems, deepSanitize_err x d hx]
      · have hx' : d + effDepth x ≤ MAX_DEPTH := by omega
        have hrest : MAX_DEPTH + 1 < d + effDepthElems rest := by omega
        simp [sanitizeElems, deepSanitize_ok x d hx',
          sanitizeElems_err rest d hle hrest]

theorem sanitizeFields_err (fs : List (String × JSValue)) (d : Nat) (hle : d ≤ MAX_DEPTH + 1)
    (h : MAX_DEPTH + 1 < d + effDepthFields fs) :
    sanitizeFields fs d = .error depthErrorMsg := by
  cases fs with
  | nil => simp [effDepthFields] at h; omega
  | cons kv rest =>
      obtain ⟨k, v⟩ := kv
      by_cases hk : k ∈ DANGEROUS_PROPS
      · have hkb : DANGEROUS_PROPS.contains k = true := by simpa using hk
        have hrest : MAX_DEPTH + 1 < d + effDepthFields rest := by
          have : effDepthFields ((k, v) :: rest) = effDepthFields rest := by
            rw [effDepthFields, if_pos hkb]
          omega
        simp [sanitizeFields, hk, hkb, sanitizeFields_err rest d hle hrest]
      · have hkb : DANGEROUS_PROPS.contains k = false := by simpa using hk
        have hsplit : effDepthFields ((k, v) :: rest)
            = max (effDepth v + 1) (effDepthFields rest) := by
          rw [effDepthFields, if_neg (by simpa using hk)]
        by_cases hv : MAX_DEPTH < d + effDepth v
        · simp [sanitizeFields, hk, hkb, deepSanitize_err v d hv]
        · have hv' : d + effDepth v ≤ MAX_DEPTH := by omega
          have hrest : MAX_DEPTH + 1 < d + effDepthFields rest := by omega
          simp [sanitizeFields, hk, hkb, deepSanitize_ok v d hv',
            sanitizeFields_err rest d hle hrest]

end

mutual

theorem stripDangerous_idem (v : JSValue) :
    stripDangerous (stripDangerous v) = stripDangerous v := by
  cases v with
  | vArr elems => simp [stripDangerous, stripElems_idem elems]
  | vObj fields => simp [stripDangerous, stripFields_idem fields]
  | vUndefined => rfl
  | vNull => rfl
  | vBool b => rfl
  | vNum q => rfl
  | vStr s => rfl

theorem stripElems_idem (xs : List JSValue) :
    stripElems (stripElems xs) = stripElems xs := by
  cases xs with
  | nil => rfl
  | cons x rest => simp [stripElems, stripDangerous_idem x, stripElems_idem rest]

theorem stripFields_idem (fs : List (String × JSValue)) :
    stripFields (stripFields fs) = stripFields fs := by
  cases fs with
  | nil => rfl
  | cons kv rest =>
      obtain ⟨k, v⟩ := kv
      by_cases hk : k ∈ DANGEROUS_PROPS
      · have hkb : DANGEROUS_PROPS.contains k = true := by simpa using hk
        simp [stripFields, hk, hkb, stripFields_idem rest]
      · have hkb : DANGEROUS_PROPS.contains k = false := by simpa using hk
        simp [stripFields, hk, hkb, stripDangerous_idem v, stripFields_idem rest]

end

mutual

theorem effDepth_strip_le (v : JSValue) : effDepth (stripDangerous v) ≤ effDepth v := by
  cases v with
  | vArr elems => simpa [stripDangerous, effDepth] using effDepthElems_strip_le elems
  | vObj fields => simpa [stripDangerous, effDepth] using effDepthFields_strip_le fields
  | vUndefined => exact le_refl _
  | vNull => exact le_refl _
  | vBool b => exact le_refl _
  | vNum q => exact le_refl _
  | vStr s => exact le_refl _

theorem effDepthElems_strip_le (xs : List JSValue) :
    effDepthElems (stripElems xs) ≤ effDepthElems xs := by
  cases xs with
  | nil => exact le_refl _
  | cons x rest =>
      have h1 := effDepth_strip_le x
      have h2 := effDepthElems_strip_le rest
      simp only [stripElems, effDepthElems]
      omega

theorem effDepthFields_strip_le (fs : List (String × JSValue)) :
    effDepthFields (stripFields fs) ≤ effDepthFields fs := by
  cases fs with
  | nil => exact le_refl _
  | cons kv rest =>
      obtain ⟨k, v⟩ := kv
      by_cases hk : k ∈ DANGEROUS_PROPS
      · have hkb : DANGEROUS_PROPS.contains k = true := by simpa using hk
        simpa [stripFields, effDepthFields, hk, hkb] using effDepthFields_strip_le rest
      · have hkb : DANGEROUS_PROPS.contains k = false := by simpa using hk
        have h1 := effDepth_strip_le v
        have h2 := effDepthFields_strip_le rest
        simp only [stripFields, hkb, Bool.false_eq_true, if_false, effDepthFields,
          hk, Bool.false_eq_true]
        omega

end

mutual

theorem effDepth_le_depthOf (v : JSValue) : effDepth v ≤ depthOf v := by
  cases v with
  | vArr elems => simpa [effDepth, depthOf] using effDepthElems_le_depthOfElems elems
  | vObj fields => simpa [effDepth, depthOf] using effDepthFields_le_depthOfFields fields
  | vUndefined => exact le_refl _
  | vNull => exact le_refl _
  | vBool b => exact le_refl _
  | vNum q => exact le_refl _
  | vStr s => exact le_refl _

theorem effDepthElems_le_depthOfElems (xs : List JSValue) :
    effDepthElems xs ≤ depthOfElems xs := by
  cases xs with
  | nil => exact le_refl _
  | cons x rest =>
      have h1 := effDepth_le_depthOf x
      have h2 := effDepthElems_le_depthOfElems rest
      simp only [effDepthElems, depthOfElems]
      omega

theorem effDepthFields_le_depthOfFields (fs : List (String × JSValue)) :
    effDepthFields fs ≤ depthOfFields fs := by
  cases fs with
  | nil => exact le_refl _
  | cons kv rest =>
      obtain ⟨k, v⟩ := kv
      have h1 := effDepth_le_depthOf v
      have h2 := effDepthFields_le_depthOfFields rest
      by_cases hk : k ∈ DANGEROUS_PROPS
      · have hkb : DANGEROUS_PROPS.contains k = true := by simpa using hk
        simp only [effDepthFields, hkb, if_true, depthOfFields]
        omega
      · have hkb : DANGEROUS_PROPS.contains k = false := by simpa using hk
        simp only [effDepthFields, hkb, Bool.false_eq_true, if_false, depthOfFields]
        omega

end

/-- A tool handler result (`ToolResult` in `src/types/index.ts`): text content
blocks plus the optional `isError` flag (`false` when absent). -/
structure ToolResult where
  content : List String
  isError : Bool
deriving Repr, DecidableEq

/-- `createToolResult` from `src/types/index.ts`: a successful text result. -/
def createToolResult (text : String) : ToolResult :=
  { content := [text], isError := false }

/-- `createErrorResult` from `src/types/index.ts`: a tool-level error result. -/
def createErrorResult (message : String) : ToolResult :=
  { content := [message], isError := true }

/-- Outcome of one dispatched tool call as seen by the transport layer: either
a protocol-level thrown error or a (possibly error-flagged) tool result. -/
inductive CallOutcome where
  | protocolError (message : String)
  | result (r : ToolResult)
deriving Repr, DecidableEq

/-- The sanitization step of the `CallToolRequestSchema` handler
(`src/index.ts`): `deepSanitize` runs on the raw arguments before the tool
handler; a sanitization failure is re-thrown as
`Invalid input format: ...` (a protocol-level rejection), and only a
successful sanitization reaches the handler. -/
def dispatchToolCall (rawArgs : JSValue) (handler : JSValue → ToolResult) : CallOutcome :=
  match deepSanitize rawArgs 0 with
  | .error msg => .protocolError ("Invalid input format: " ++ msg)
  | .ok args => .result (handler args)

/-- C3: for every input whose nesting depth is within the cap (10),
`deepSanitize` returns the input with exactly the keys `__proto__`,
`constructor` and `prototype` removed at every nesting level (including
inside array elements) and nothing else changed (`stripDangerous`), and
sanitizing twice equals sanitizing once. -/
theorem deepSanitize_strips_exactly_and_idempotent (v : JSValue)
    (h : depthOf v ≤ MAX_DEPTH) :
    deepSanitize v 0 = .ok (stripDangerous v) ∧
    (deepSanitize v 0).bind (fun w => deepSanitize w 0) = deepSanitize v 0 := by
  have he : (0 : Nat) + effDepth v ≤ MAX_DEPTH := by
    have := effDepth_le_depthOf v
    omega
  have h1 := deepSanitize_ok v 0 he
  have he2 : (0 : Nat) + effDepth (stripDangerous v) ≤ MAX_DEPTH := by
    have := effDepth_strip_le v
    omega
  have h2 := deepSanitize_ok (stripDangerous v) 0 he2
  refine ⟨h1, ?_⟩
  rw [h1]
  show deepSanitize (stripDangerous v) 0 = Except.ok (stripDangerous v)
  rw [h2, stripDangerous_idem]

/-- A concrete malicious input: dangerous keys at several nesting levels,
also inside an array element. -/
def c3Sample : JSValue :=
  .vObj [("name", .vStr "user"),
         ("__proto__", .vObj [("isAdmin", .vBool true)]),
         ("nested", .vObj [("constructor", .vNum 1),
                           ("keep", .vArr [.vObj [("prototype", .vNull),
                                                  ("x", .vNum 2)]])])]

/-- Witness for C3 at `c3Sample`. -/
theorem deepSanitize_strips_exactly_and_idempotent_witness :
    depthOf c3Sample ≤ MAX_DEPTH ∧
    (deepSanitize c3Sample 0 = .ok (stripDangerous c3Sample) ∧
      (deepSanitize c3Sample 0).bind (fun w => deepSanitize w 0) = deepSanitize c3Sample 0) := by
  have hdep : depthOf c3Sample ≤ MAX_DEPTH := by
    simp [c3Sample, depthOf, depthOfFields, depthOfElems, MAX_DEPTH]
  exact ⟨hdep, deepSanitize_strips_exactly_and_idempotent c3Sample hdep⟩

/-- A chain of `n` nested single-field objects under the key `a`. -/
def nestedChain : Nat → JSValue
  | 0 => .vNull
  | n + 1 => .vObj [("a", nestedChain n)]

/-- An input nested 13 levels deep, where all the depth sits below a
`__proto__` key. -/
def deepProtoSample : JSValue := .vObj [("__proto__", nestedChain 12)]

/-- C4, counterexample: `deepProtoSample` is nested deeper than the maximum
depth (10), yet `deepSanitize` succeeds on it — the dangerous key is dropped
without recursing into its value, so the depth cap is never hit.  This
refutes the claim that every input nested deeper than the cap fails. -/
theorem deepSanitize_deep_proto_not_rejected :
    MAX_DEPTH < depthOf deepProtoSample ∧
    deepSanitize deepProtoSample 0 = .ok (.vObj []) := by
  constructor
  · simp [deepProtoSample, nestedChain, depthOf, depthOfFields, depthOfElems, MAX_DEPTH]
  · simp [deepProtoSample, deepSanitize, sanitizeFields, MAX_DEPTH, DANGEROUS_PROPS]

/-- C4, amended: for every input whose nesting depth outside dangerous-key
subtrees exceeds the cap, `deepSanitize` fails with the distinct depth error
(an `Except.error`, so no partially sanitized or truncated value is ever
produced), and the dispatcher converts the failure into a protocol-level
rejection of the call, never a tool-level error result. -/
theorem deepSanitize_depth_exceeded_rejected (v : JSValue)
    (h : MAX_DEPTH < effDepth v) :
    deepSanitize v 0 = .error depthErrorMsg ∧
    ∀ handler : JSValue → ToolResult,
      dispatchToolCall v handler = .protocolError ("Invalid input format: " ++ depthErrorMsg) := by
  have herr : deepSanitize v 0 = .error depthErrorMsg := by
    apply deepSanitize_err
    omega
  refine ⟨herr, fun handler => ?_⟩
  simp [dispatchToolCall, herr]

/-- Witness for the amended C4 at a plain chain of 12 nested objects. -/
theorem deepSanitize_depth_exceeded_rejected_witness :
    MAX_DEPTH < effDepth (nestedChain 12) ∧
    (deepSanitize (nestedChain 12) 0 = .error depthErrorMsg ∧
      ∀ handler : JSValue → ToolResult,
        dispatchToolCall (nestedChain 12) handler
          = .protocolError ("Invalid input format: " ++ depthErrorMsg)) := by
  have hdep : MAX_DEPTH < effDepth (nestedChain 12) := by
    simp [nestedChain, effDepth, effDepthFields, effDepthElems, MAX_DEPTH, DANGEROUS_PROPS]
  exact ⟨hdep, deepSanitize_depth_exceeded_rejected (nestedChain 12) hdep⟩

/-- Is this value JavaScript `undefined`? -/
def isUndefined : JSValue → Bool
  | .vUndefined => true
  | _ => false

/-- Is this value an array? -/
def isArray : JSValue → Bool
  | .vArr _ => true
  | _ => false

/-- Is this value the boolean `false` (for the `!== false` checks)? -/
def isBoolFalse : JSValue → Bool
  | .vBool false => true
  | _ => false

/-- Rendering of a dynamic value inside a JS template literal, for the report
strings (scalars as JS would print them; composite values approximated). -/
def jsTemplate : JSValue → String
  | .vUndefined => "undefined"
  | .vNull => "null"
  | .vBool b => if b then "true" else "false"
  | .vNum q => toString q
  | .vStr s => s
  | .vArr _ => "[array]"
  | .vObj _ => "[object Object]"

/-- `Number.prototype.toFixed(1)`, approximated for the nonnegative scores
this server prints (round half up to one decimal place). -/
def toFixed1 (q : ℚ) : String :=
  let scaled : ℤ := ⌊q * 10 + 1 / 2⌋
  toString (scaled / 10) ++ "." ++ toString ((scaled % 10).natAbs)

/-- A fact in the knowledge base (`Fact` in `src/types/index.ts`). -/
structure Fact where
  id : String
  content : String
  confidence : ℚ
  source : String
deriving Repr, DecidableEq

/-- A learned pattern (`Pattern` in `src/types/index.ts`). -/
structure Pattern where
  pattern : String
  response_type : String
  effectiveness : ℚ
deriving Repr, DecidableEq

/-- Behavioral preferences, with the seed fields of `createInitialState`. -/
structure Preferences where
  communicationStyle : String
  responseDetailLevel : String
  learn_from_feedback : Bool
  auto_optimize : Bool
  productivity_focus : Bool
  tool_usage_priority : Bool
deriving Repr, DecidableEq

/-- The knowledge base aggregate (`KnowledgeBase` in `src/types/index.ts`). -/
structure KnowledgeBase where
  facts : List Fact
  patterns : List Pattern
  preferences : Preferences
deriving Repr, DecidableEq

/-- Per-tool usage statistics (`ToolStats` in `src/types/index.ts`). -/
structure ToolStats where
  uses : Nat
  success : Nat
deriving Repr, DecidableEq

/-- An error record (`ErrorRecord` in `src/types/index.ts`). -/
structure ErrorRecord where
  tool : String
  message : String
  timestamp : String
  stack : Option String
deriving Repr, DecidableEq

/-- Performance metrics (`PerformanceMetrics` in `src/types/index.ts`).
`toolUsageCount` is a JS object used as a map; we keep its entries as an
ordered association list, as `Object.entries` would enumerate them. -/
structure PerformanceMetrics where
  totalInteractions : Nat
  successfulInteractions : Nat
  averageResponseTime : ℚ
  userSatisfaction : ℚ
  toolUsageCount : List (String × Nat)
  productivityScore : ℚ
  lastOptimization : Option String
  errorCount : Nat
  lastError : Option ErrorRecord
deriving Repr, DecidableEq

/-- A productivity goal as the `set_goal` handler actually builds it at
runtime: `description`, `priority` and `deadline` are copied from the
(unvalidated) dynamic `goal` argument, so they are dynamic values. -/
structure ProductivityGoal where
  id : String
  description : JSValue
  priority : JSValue
  deadline : JSValue
  created : String
deriving Repr

/-- Productivity metrics (`ProductivityMetrics` in `src/types/index.ts`). -/
structure ProductivityMetrics where
  tasksCompleted : Nat
  efficiencyScore : ℚ
  toolEffectiveness : List (String × ToolStats)
  userGoals : List ProductivityGoal
  completedGoals : List ProductivityGoal
deriving Repr

/-- An interaction history entry: the spread of the dynamic `interaction`
argument plus the `timestamp` and `id` fields added by the handler. -/
structure InteractionEntry where
  fields : List (String × JSValue)
  timestamp : String
  id : String
deriving Repr

/-- A feedback entry (`FeedbackEntry` in `src/types/index.ts`). -/
structure FeedbackEntry where
  feedback : String
  timestamp : String
  relatedInteraction : JSValue
deriving Repr

/-- Target metrics of the auto-optimization config. -/
structure TargetMetrics where
  minSuccessRate : ℚ
  maxResponseTime : ℚ
  minToolUsage : ℚ
  targetProductivity : ℚ
deriving Repr, DecidableEq

/-- Auto-optimization configuration (`AutoOptimizationConfig`).  Timestamps
(`Date.now()` milliseconds) are integers. -/
structure AutoOptimizationConfig where
  enabled : Bool
  interval : Int
  lastRun : Int
  priorityAreas : List String
  targetMetrics : TargetMetrics
deriving Repr, DecidableEq

/-- The complete server state (`ServerState` in `src/tools/state.ts`). -/
structure ServerState where
  interactionHistory : List InteractionEntry
  feedbackData : List FeedbackEntry
  performanceMetrics : PerformanceMetrics
  productivityMetrics : ProductivityMetrics
  knowledgeBase : KnowledgeBase
  autoOptimization : AutoOptimizationConfig
deriving Repr

/-- `createInitialState` from `src/tools/state.ts` (also the constructor seed
of `ServerStateManager`), parametrized by the construction time for
`lastRun: Date.now()`. -/
def createInitialState (now : Int) : ServerState :=
  { interactionHistory := []
    feedbackData := []
    performanceMetrics :=
      { totalInteractions := 0
        successfulInteractions := 0
        averageResponseTime := 0
        userSatisfaction := 0
        toolUsageCount := []
        productivityScore := 0.75
        lastOptimization := none
        errorCount := 0
        lastError := none }
    productivityMetrics :=
      { tasksCompleted := 0
        efficiencyScore := 0.8
        toolEffectiveness := []
        userGoals := []
        completedGoals := [] }
    knowledgeBase :=
      { facts :=
          [ { id := "greeting_1", content := "Users appreciate friendly greetings",
              confidence := 0.8, source := "pattern_analysis" },
            { id := "efficiency_1", content := "Quick responses improve user satisfaction",
              confidence := 0.9, source := "metrics_analysis" },
            { id := "productivity_1", content := "Tool usage increases task completion rates",
              confidence := 0.95, source := "performance_analysis" },
            { id := "optimization_1",
              content := "Continuous optimization improves system performance",
              confidence := 0.9, source := "system_analysis" } ]
        patterns :=
          [ { pattern := "feedback_positive", response_type := "acknowledgment",
              effectiveness := 0.85 },
            { pattern := "feedback_negative", response_type := "apology_and_improve",
              effectiveness := 0.75 },
            { pattern := "tool_usage_success", response_type := "enhance_tool_capabilities",
              effectiveness := 0.9 },
            { pattern := "productivity_focus", response_type := "prioritize_efficiency",
              effectiveness := 0.88 } ]
        preferences :=
          { communicationStyle := "professional"
            responseDetailLevel := "balanced"
            learn_from_feedback := true
            auto_optimize := true
            productivity_focus := true
            tool_usage_priority := true } }
    autoOptimization :=
      { enabled := true
        interval := 300000
        lastRun := now
        priorityAreas := ["performance", "productivity", "tool_usage", "response_time"]
        targetMetrics :=
          { minSuccessRate := 0.85
            maxResponseTime := 2000
            minToolUsage := 0.7
            targetProductivity := 0.9 } } }

/-- The default bounded-collection limits of `ServerStateManager`
(`DEFAULT_CONFIG` in `src/state/ServerStateManager.ts`). -/
structure StateManagerConfig where
  maxHistorySize : Nat
  maxFeedbackSize : Nat
  maxFactsSize : Nat
  maxPatternsSize : Nat
  maxGoalsSize : Nat
deriving Repr, DecidableEq

/-- `DEFAULT_CONFIG` from `src/state/ServerStateManager.ts`. -/
def DEFAULT_CONFIG : StateManagerConfig :=
  { maxHistorySize := 1000
    maxFeedbackSize := 500
    maxFactsSize := 200
    maxPatternsSize := 100
    maxGoalsSize := 50 }

/-- `ServerStateManager.pruneArray`: `while (array.length > maxSize)
array.shift()` — repeatedly removes the oldest (front) entry, i.e. drops
`length - maxSize` elements from the front. -/
def pruneArray (array : List α) (maxSize : Nat) : List α :=
  array.drop (array.length - maxSize)

/-- `calculateSuccessRate` from `src/utils/metrics.ts`: guarded ratio,
`total > 0 ? successful / total : 0`. -/
def calculateSuccessRate (total successful : Nat) : ℚ :=
  if total > 0 then (successful : ℚ) / (total : ℚ) else 0

/-- `formatPercentage` from `src/utils/metrics.ts` at the default one decimal
place: `(value * 100).toFixed(1)`. -/
def formatPercentage (value : ℚ) : String :=
  toFixed1 (value * 100)

/-- `updateRunningAverage` from `src/utils/metrics.ts`. -/
def updateRunningAverage (currentAvg newValue : ℚ) : ℚ :=
  (currentAvg + newValue) / 2

/-- The success-rate part of one line of `formatToolStats`
(`src/utils/metrics.ts`): `stats.uses > 0 ?
formatPercentage(stats.success / stats.uses) : 'N/A'`. -/
def toolStatRate (stats : ToolStats) : String :=
  if stats.uses > 0 then formatPercentage ((stats.success : ℚ) / (stats.uses : ℚ)) else "N/A"

/-- One line of `formatToolStats`. -/
def toolStatLine (tool : String) (stats : ToolStats) : String :=
  tool ++ ": " ++ toolStatRate stats ++ "% success rate"

/-- `formatToolStats` from `src/utils/metrics.ts`. -/
def formatToolStats (effectiveness : List (String × ToolStats)) : String :=
  if effectiveness.isEmpty then "No tool usage data available"
  else String.intercalate "\n" (effectiveness.map (fun p => toolStatLine p.1 p.2))

/-- The success-rate part of one `get_metrics` line in
`src/tools/track-productivity.ts`: `stats.uses > 0 ?
(stats.success / stats.uses * 100).toFixed(1) : 'N/A'`. -/
def metricsStatRate (stats : ToolStats) : String :=
  if stats.uses > 0 then toFixed1 ((stats.success : ℚ) / (stats.uses : ℚ) * 100) else "N/A"

/-- One tool line of the `get_metrics` report. -/
def metricsStatLine (tool : String) (stats : ToolStats) : String :=
  tool ++ ": " ++ toString stats.success ++ "/" ++ toString stats.uses
    ++ " (" ++ metricsStatRate stats ++ "% success)"

/-- The success-rate part of one line of the `analyzeEfficiency` helper in
`src/tools/track-productivity.ts` (same zero-uses guard, `N/A` sentinel). -/
def analyzeStatRate (stats : ToolStats) : String :=
  if stats.uses > 0 then toFixed1 ((stats.success : ℚ) / (stats.uses : ℚ) * 100) else "N/A"

/-- One tool line of the `analyze_efficiency` report. -/
def analyzeStatLine (tool : String) (stats : ToolStats) : String :=
  tool ++ ": " ++ analyzeStatRate stats ++ "% success rate"

/-- The per-tool success rate of the legacy `analyzeEfficiency`
(`index.js`): `stats.uses > 0 ? (stats.success / stats.uses) * 100 : 0` —
the numeric sentinel `0` instead of the string `N/A`. -/
def legacySuccessRate (stats : ToolStats) : ℚ :=
  if stats.uses > 0 then ((stats.success : ℚ) / (stats.uses : ℚ)) * 100 else 0

/-- `map[name] = (map[name] || 0) + 1` on a JS object used as a counter map:
an existing key is updated in place, a missing key is appended. -/
def bumpCount (m : List (String × Nat)) (name : String) : List (String × Nat) :=
  if (m.lookup name).isSome then
    m.map (fun p => if p.1 = name then (p.1, p.2 + 1) else p)
  else
    m ++ [(name, 1)]

/-- The `toolEffectiveness` update shared by `trackToolUsage` and the
`add_task` loop: initialize a missing entry to `\x7b uses: 0, success: 0 \x7d`,
then increment `uses`, and increment `success` when the use counts as
successful. -/
def updateToolEffectiveness (m : List (String × ToolStats)) (name : String)
    (success : Bool) : List (String × ToolStats) :=
  if (m.lookup name).isSome then
    m.map (fun p =>
      if p.1 = name then
        (p.1, { uses := p.2.uses + 1,
                success := p.2.success + (if success then 1 else 0) })
      else p)
  else
    m ++ [(name, { uses := 1, success := if success then 1 else 0 })]

/-- `ServerStateManager.trackToolUsage`: bumps the raw usage counter and the
per-tool effectiveness pair. -/
def trackToolUsage (s : ServerState) (toolName : String) (success : Bool) : ServerState :=
  { s with
    performanceMetrics :=
      { s.performanceMetrics with
        toolUsageCount := bumpCount s.performanceMetrics.toolUsageCount toolName }
    productivityMetrics :=
      { s.productivityMetrics with
        toolEffectiveness :=
          updateToolEffectiveness s.productivityMetrics.toolEffectiveness toolName success } }

/-- `ServerStateManager.updateAverageResponseTime`. -/
def updateAverageResponseTime (s : ServerState) (responseTime : ℚ) : ServerState :=
  { s with
    performanceMetrics :=
      { s.performanceMetrics with
        averageResponseTime :=
          (s.performanceMetrics.averageResponseTime + responseTime) / 2 } }

/-- `ServerStateManager.recordError`. -/
def recordError (s : ServerState) (error : ErrorRecord) : ServerState :=
  { s with
    performanceMetrics :=
      { s.performanceMetrics with
        errorCount := s.performanceMetrics.errorCount + 1
        lastError := some error } }

/-- `ServerStateManager.setAutoOptimizationEnabled`. -/
def setAutoOptimizationEnabled (s : ServerState) (enabled : Bool) : ServerState :=
  { s with autoOptimization := { s.autoOptimization with enabled := enabled } }

/-- The range test `task.efficiency < 0 || task.efficiency > 1` on a dynamic
value (false on non-numbers, which the preceding `typeof` check excludes). -/
def numOutOfRange01 : JSValue → Bool
  | .vNum q => decide (q < 0) || decide (1 < q)
  | _ => false

/-- The first non-string element of a `toolsUsed` array, if any — the element
whose `typeof` the validation loop reports. -/
def firstNonString : List JSValue → Option JSValue
  | [] => none
  | x :: xs => if typeofStr x = "string" then firstNonString xs else some x

/-- The `task.toolsUsed.forEach(...)` loop of `add_task`: for every (string)
tool name, bump its effectiveness entry; the use counts as successful when
`task.success !== false`. -/
def trackToolsUsedLoop (m : List (String × ToolStats)) (els : List JSValue)
    (notFalse : Bool) : List (String × ToolStats) :=
  els.foldl (fun acc el =>
    match el with
    | .vStr tool => updateToolEffectiveness acc tool notFalse
    | _ => acc) m

/-- Embedding of `handleTrackProductivity` (`src/tools/track-productivity.ts`):
the five-way action dispatch over the shared state.  `task` and `goal` are the
dynamic arguments (`vUndefined` when absent); `now`/`nowISO` stand for
`Date.now()` and `new Date().toISOString()`. -/
def handleTrackProductivity (action : String) (task goal : JSValue)
    (now : Int) (nowISO : String) (s : ServerState) : ToolResult × ServerState :=
  if action = "add_task" then
    if truthy task = false then
      (createErrorResult "❌ Task information required", s)
    else
      let name := getField task "name"
      let eff := getField task "efficiency"
      let toolsUsed := getField task "toolsUsed"
      if truthy name = false ∨ typeofStr name ≠ "string" then
        (createErrorResult "❌ Task name must be a non-empty string", s)
      else if isUndefined eff = false ∧ typeofStr eff ≠ "number" then
        (createErrorResult "❌ Task efficiency must be a number (0-1)", s)
      else if isUndefined eff = false ∧ numOutOfRange01 eff = true then
        (createErrorResult "❌ Task efficiency must be between 0 and 1", s)
      else if truthy toolsUsed = true ∧ isArray toolsUsed = false then
        (createErrorResult "❌ toolsUsed must be an array of strings", s)
      else
        match truthy toolsUsed, toolsUsed, firstNonString (match toolsUsed with | .vArr els => els | _ => []) with
        | true, .vArr _, some bad =>
            (createErrorResult ("❌ All tools must be strings, found " ++ typeofStr bad), s)
        | _, _, _ =>
            -- Now update metrics with validated data
            let notFalse := ! isBoolFalse (getField task "success")
            let pm0 := s.productivityMetrics
            let pm1 := { pm0 with tasksCompleted := pm0.tasksCompleted + 1 }
            let pm2 :=
              if truthy toolsUsed then
                match toolsUsed with
                | .vArr els =>
                    { pm1 with toolEffectiveness :=
                        trackToolsUsedLoop pm1.toolEffectiveness els notFalse }
                | _ => pm1
              else pm1
            let pm3 :=
              if truthy eff then
                match eff with
                | .vNum q =>
                    { pm2 with efficiencyScore := pm2.efficiencyScore * 0.9 + q * 0.1 }
                | _ => pm2
              else pm2
            (createToolResult
              ("✅ Task tracked: " ++ jsTemplate name
                ++ "\n📊 Productivity metrics updated"
                ++ "\n🎯 Tasks completed: " ++ toString pm3.tasksCompleted
                ++ "\n⚡ Current efficiency: " ++ toFixed1 (pm3.efficiencyScore * 100) ++ "%"),
             { s with productivityMetrics := pm3 })
  else if action = "complete_task" then
    let pm := { s.productivityMetrics with
                tasksCompleted := s.productivityMetrics.tasksCompleted + 1 }
    let perf := { s.performanceMetrics with
                  productivityScore :=
                    min 1.0 (s.performanceMetrics.productivityScore + 0.02) }
    (createToolResult
      ("🎉 Task completed!"
        ++ "\n📈 Productivity score: " ++ toFixed1 (perf.productivityScore * 100) ++ "%"
        ++ "\n✅ Total tasks completed: " ++ toString pm.tasksCompleted),
     { s with productivityMetrics := pm, performanceMetrics := perf })
  else if action = "set_goal" then
    if truthy goal = false then
      (createErrorResult "❌ Goal information required", s)
    else
      let newGoal : ProductivityGoal :=
        { id := "goal_" ++ toString now
          description := getField goal "description"
          priority := jsOr (getField goal "priority") (.vStr "medium")
          deadline := getField goal "deadline"
          created := nowISO }
      let pm := { s.productivityMetrics with
                  userGoals := s.productivityMetrics.userGoals ++ [newGoal] }
      (createToolResult
        ("🎯 Goal set: " ++ jsTemplate (getField goal "description")
          ++ "\n📅 Priority: " ++ jsTemplate (jsOr (getField goal "priority") (.vStr "medium"))
          ++ "\n🚀 Goal added to productivity tracking"),
       { s with productivityMetrics := pm })
  else if action = "get_metrics" then
    let toolStats :=
      String.intercalate "\n"
        (s.productivityMetrics.toolEffectiveness.map (fun p => metricsStatLine p.1 p.2))
    (createToolResult
      ("📊 Productivity Metrics\n"
        ++ "\n🎯 Tasks Completed: " ++ toString s.productivityMetrics.tasksCompleted
        ++ "\n⚡ Efficiency Score: " ++ toFixed1 (s.productivityMetrics.efficiencyScore * 100) ++ "%"
        ++ "\n📈 Productivity Score: " ++ toFixed1 (s.performanceMetrics.productivityScore * 100) ++ "%"
        ++ "\n🛠️ Tool Effectiveness:\n"
        ++ (if toolStats = "" then "No tool usage data yet" else toolStats)
        ++ "\n🎯 Active Goals: " ++ toString s.productivityMetrics.userGoals.length
        ++ "\n✅ Completed Goals: " ++ toString s.productivityMetrics.completedGoals.length),
     s)
  else if action = "analyze_efficiency" then
    let toolStats :=
      String.intercalate "\n"
        (s.productivityMetrics.toolEffectiveness.map (fun p => analyzeStatLine p.1 p.2))
    (createToolResult
      ("📈 Efficiency Analysis\n"
        ++ "\n🎯 Current Efficiency Score: "
        ++ toFixed1 (s.productivityMetrics.efficiencyScore * 100) ++ "%"
        ++ "\n📊 Productivity Score: "
        ++ toFixed1 (s.performanceMetrics.productivityScore * 100) ++ "%"
        ++ "\n\n🛠️ Tool Effectiveness:\n"
        ++ (if toolStats = "" then "No tool usage data available" else toolStats)
        ++ "\n\n💡 Recommendations:"
        ++ "\n- Focus on high-effectiveness tools"
        ++ "\n- Track task completion more consistently"
        ++ "\n- Set measurable goals with deadlines"),
     s)
  else
    (createErrorResult "❌ Unknown action", s)

/-- The validated goal structure produced by `validateGoal`
(`src/utils/validation.ts`); `priority` and `deadline` are copied through as
dynamic values. -/
structure GoalInput where
  description : String
  priority : JSValue
  deadline : JSValue
deriving Repr

/-- `goal.priority` membership in `validPriorities = ['low', 'medium',
'high']` (the `includes` check compares by strict equality, so any
non-string value fails). -/
def isValidPriority : JSValue → Bool
  | .vStr s => ["low", "medium", "high"].contains s
  | _ => false

/-- Embedding of `validateGoal` (`src/utils/validation.ts`): description must
be a truthy string; priority, if present, must be one of `low`, `medium`,
`high`. -/
def validateGoal (input : JSValue) : Except String GoalInput :=
  if truthy input = false ∨ typeofStr input ≠ "object" then
    .error "Goal information required"
  else
    let description := getField input "description"
    if truthy description = false ∨ typeofStr description ≠ "string" then
      .error "Goal description must be a non-empty string"
    else
      let priority := getField input "priority"
      if isUndefined priority = false ∧ isValidPriority priority = false then
        .error "Goal priority must be one of: low, medium, high"
      else
        .ok { description := (match description with | .vStr s => s | _ => "")
              priority := priority
              deadline := getField input "deadline" }

/-- A value with a truthy field must itself be a truthy object. -/
theorem truthy_of_getField_truthy (v : JSValue) (k : String)
    (h : truthy (getField v k) = true) : truthy v = true := by
  cases v with
  | vObj fields => rfl
  | vUndefined => simp [getField, truthy] at h
  | vNull => simp [getField, truthy] at h
  | vBool b => simp [getField, truthy] at h
  | vNum q => simp [getField, truthy] at h
  | vStr s => simp [getField, truthy] at h
  | vArr elems => simp [getField, truthy] at h

/-- The ways an `add_task` payload can fail the handler validation: missing
or non-string name, non-numeric efficiency, efficiency outside `[0, 1]`, a
`toolsUsed` that is not an array, or a `toolsUsed` array with a non-string
element. -/
def invalidTaskInput (task : JSValue) : Prop :=
  (truthy (getField task "name") = false ∨ typeofStr (getField task "name") ≠ "string")
  ∨ (isUndefined (getField task "efficiency") = false ∧
      typeofStr (getField task "efficiency") ≠ "number")
  ∨ (isUndefined (getField task "efficiency") = false ∧
      numOutOfRange01 (getField task "efficiency") = true)
  ∨ (truthy (getField task "toolsUsed") = true ∧ isArray (getField task "toolsUsed") = false)
  ∨ (∃ els, getField task "toolsUsed" = .vArr els ∧ (firstNonString els).isSome = true)

/-- C5: an `add_task` call whose task fails validation (efficiency outside
`[0, 1]`, non-string name, non-numeric efficiency, or a `toolsUsed` that is
not an array of strings) returns an error-flagged result and leaves the
entire server state — in particular `tasksCompleted`, `toolEffectiveness`
and `efficiencyScore` — unchanged. -/
theorem trackProductivity_add_task_invalid_no_mutation
    (s : ServerState) (task goal : JSValue) (now : Int) (nowISO : String)
    (h : invalidTaskInput task) :
    (handleTrackProductivity "add_task" task goal now nowISO s).1.isError = true ∧
    (handleTrackProductivity "add_task" task goal now nowISO s).2 = s := by
  unfold handleTrackProductivity
  rw [if_pos (rfl : ("add_task" : String) = "add_task")]
  by_cases h0 : truthy task = false
  · rw [if_pos h0]
    exact ⟨rfl, rfl⟩
  · rw [if_neg h0]
    simp only []
    by_cases h1 : truthy (getField task "name") = false ∨
        typeofStr (getField task "name") ≠ "string"
    · rw [if_pos h1]
      exact ⟨rfl, rfl⟩
    · rw [if_neg h1]
      by_cases h2 : isUndefined (getField task "efficiency") = false ∧
          typeofStr (getField task "efficiency") ≠ "number"
      · rw [if_pos h2]
        exact ⟨rfl, rfl⟩
      · rw [if_neg h2]
        by_cases h3 : isUndefined (getField task "efficiency") = false ∧
            numOutOfRange01 (getField task "efficiency") = true
        · rw [if_pos h3]
          exact ⟨rfl, rfl⟩
        · rw [if_neg h3]
          by_cases h4 : truthy (getField task "toolsUsed") = true ∧
              isArray (getField task "toolsUsed") = false
          · rw [if_pos h4]
            exact ⟨rfl, rfl⟩
          · rw [if_neg h4]
            rcases h with hbad | hbad | hbad | hbad | hbad
            · exact absurd hbad h1
            · exact absurd hbad h2
            · exact absurd hbad h3
            · exact absurd hbad h4
            · obtain ⟨els, hels, hsome⟩ := hbad
              obtain ⟨bad, hfb⟩ := Option.isSome_iff_exists.mp hsome
              rw [hels]
              simp [truthy, hfb, createErrorResult]

/-- An `add_task` payload whose efficiency is out of range. -/
def c5BadTask : JSValue := .vObj [("name", .vStr "test"), ("efficiency", .vNum 1.5)]

/-- Witness for C5: efficiency `1.5` is rejected and the initial state is
left untouched. -/
theorem trackProductivity_add_task_invalid_no_mutation_witness :
    invalidTaskInput c5BadTask ∧
    ((handleTrackProductivity "add_task" c5BadTask .vUndefined 0 "t"
        (createInitialState 0)).1.isError = true ∧
      (handleTrackProductivity "add_task" c5BadTask .vUndefined 0 "t"
        (createInitialState 0)).2 = createInitialState 0) := by
  have hinv : invalidTaskInput c5BadTask := by
    right; right; left
    refine ⟨rfl, ?_⟩
    simp [c5BadTask, getField, numOutOfRange01, List.lookup]
    norm_num
  exact ⟨hinv,
    trackProductivity_add_task_invalid_no_mutation (createInitialState 0) c5BadTask
      .vUndefined 0 "t" hinv⟩

/-- C10: an `add_task` call with efficiency exactly `0` passes validation and
increments `tasksCompleted`, but the weighted-average update of
`efficiencyScore` is skipped, because the update is guarded by the
truthiness check `if (task.efficiency)` and `0` is falsy. -/
theorem trackProductivity_add_task_zero_efficiency_skips_update
    (s : ServerState) (task goal : JSValue) (now : Int) (nowISO : String)
    (hname : truthy (getField task "name") = true)
    (hnameStr : typeofStr (getField task "name") = "string")
    (heff : getField task "efficiency" = .vNum 0)
    (htools : getField task "toolsUsed" = .vUndefined) :
    (handleTrackProductivity "add_task" task goal now nowISO s).1.isError = false ∧
    (handleTrackProductivity "add_task" task goal now nowISO s).2.productivityMetrics.tasksCompleted
      = s.productivityMetrics.tasksCompleted + 1 ∧
    (handleTrackProductivity "add_task" task goal now nowISO s).2.productivityMetrics.efficiencyScore
      = s.productivityMetrics.efficiencyScore := by
  have h0 : ¬ truthy task = false := by
    have := truthy_of_getField_truthy task "name" hname
    simp [this]
  have h1 : ¬ (truthy (getField task "name") = false ∨
      typeofStr (getField task "name") ≠ "string") := by
    simp [hname, hnameStr]
  have h2 : ¬ (isUndefined (getField task "efficiency") = false ∧
      typeofStr (getField task "efficiency") ≠ "number") := by
    simp [heff, typeofStr]
  have h3 : ¬ (isUndefined (getField task "efficiency") = false ∧
      numOutOfRange01 (getField task "efficiency") = true) := by
    simp [heff, numOutOfRange01]
  have h4 : ¬ (truthy (getField task "toolsUsed") = true ∧
      isArray (getField task "toolsUsed") = false) := by
    simp [htools, truthy]
  unfold handleTrackProductivity
  rw [if_pos (rfl : ("add_task" : String) = "add_task"), if_neg h0]
  simp only []
  rw [if_neg h1, if_neg h2, if_neg h3, if_neg h4, htools, heff]
  simp [truthy, createToolResult]

/-- Witness for C10 at a concrete task with efficiency `0`. -/
theorem trackProductivity_add_task_zero_efficiency_skips_update_witness :
    (truthy (getField (JSValue.vObj [("name", .vStr "t"), ("efficiency", .vNum 0)]) "name") = true ∧
      typeofStr (getField (JSValue.vObj [("name", .vStr "t"), ("efficiency", .vNum 0)]) "name") = "string" ∧
      getField (JSValue.vObj [("name", .vStr "t"), ("efficiency", .vNum 0)]) "efficiency" = .vNum 0 ∧
      getField (JSValue.vObj [("name", .vStr "t"), ("efficiency", .vNum 0)]) "toolsUsed" = .vUndefined) ∧
    ((handleTrackProductivity "add_task" (JSValue.vObj [("name", .vStr "t"), ("efficiency", .vNum 0)])
        .vUndefined 0 "t" (createInitialState 0)).1.isError = false ∧
      (handleTrackProductivity "add_task" (JSValue.vObj [("name", .vStr "t"), ("efficiency", .vNum 0)])
        .vUndefined 0 "t" (createInitialState 0)).2.productivityMetrics.tasksCompleted
        = (createInitialState 0).productivityMetrics.tasksCompleted + 1 ∧
      (handleTrackProductivity "add_task" (JSValue.vObj [("name", .vStr "t"), ("efficiency", .vNum 0)])
        .vUndefined 0 "t" (createInitialState 0)).2.productivityMetrics.efficiencyScore
        = (createInitialState 0).productivityMetrics.efficiencyScore) := by
  refine ⟨⟨rfl, rfl, rfl, rfl⟩, ?_⟩
  exact trackProductivity_add_task_zero_efficiency_skips_update (createInitialState 0)
    (JSValue.vObj [("name", .vStr "t"), ("efficiency", .vNum 0)]) .vUndefined 0 "t"
    rfl rfl rfl rfl

/-- A `set_goal` payload with no description and an invalid priority. -/
def c7BadGoal : JSValue := .vObj [("priority", .vStr "urgent")]

/-- C7: the repo ships `validateGoal`, which rejects this goal with a
descriptive error, but the `set_goal` branch of `handleTrackProductivity`
never calls it — it only checks that `goal` is truthy, returns a success
result, and appends the invalid goal (undefined description, priority
`urgent`) to `userGoals`. -/
theorem trackProductivity_set_goal_skips_validation
    (s : ServerState) (now : Int) (nowISO : String) :
    validateGoal c7BadGoal = .error "Goal description must be a non-empty string" ∧
    (handleTrackProductivity "set_goal" .vUndefined c7BadGoal now nowISO s).1.isError = false ∧
    (handleTrackProductivity "set_goal" .vUndefined c7BadGoal now nowISO s).2.productivityMetrics.userGoals
      = s.productivityMetrics.userGoals ++
        [{ id := "goal_" ++ toString now, description := .vUndefined,
           priority := .vStr "urgent", deadline := .vUndefined, created := nowISO }] := by
  refine ⟨rfl, ?_, ?_⟩
  · simp [handleTrackProductivity, c7BadGoal, truthy, createToolResult]
  · simp [handleTrackProductivity, c7BadGoal, truthy, createToolResult, getField, jsOr,
      List.lookup]

/-- JavaScript `String.prototype.includes` on the character lists. -/
def jsIncludes (s sub : String) : Bool :=
  decide (sub.toList <:+: s.toList)

/-- The tail of `handleLearnFromInteraction` after the feedback block: the
context fact and the success report (with the improvement notes gathered by
the feedback checks). -/
def learnFinish (interaction : JSValue) (now : Int)
    (improvements : List String) (s : ServerState) :
    Except String (ToolResult × ServerState) :=
  let ctx := getField interaction "context"
  let s6 :=
    if truthy ctx then
      { s with knowledgeBase := { s.knowledgeBase with facts :=
        s.knowledgeBase.facts ++
          [{ id := "context_" ++ toString now
             content := "Context learning: " ++ jsTemplate ctx
             confidence := 0.6
             source := "context_analysis" }] } }
    else s
  .ok (createToolResult
    ("🧠 Learning completed successfully!\n"
      ++ "\n📊 Performance Update:"
      ++ "\n- Total interactions: " ++ toString s6.performanceMetrics.totalInteractions
      ++ "\n- Success rate: "
      ++ toFixed1 ((s6.performanceMetrics.successfulInteractions : ℚ)
          / (s6.performanceMetrics.totalInteractions : ℚ) * 100) ++ "%"
      ++ "\n- Knowledge base size: " ++ toString s6.knowledgeBase.facts.length
      ++ " facts, " ++ toString s6.knowledgeBase.patterns.length ++ " patterns"
      ++ "\n\n🔧 Improvements Made:\n"
      ++ (if improvements.isEmpty then "- No specific improvements needed"
          else String.intercalate "\n" (improvements.map (fun imp => "- " ++ imp)))
      ++ "\n\n✅ Ready to provide better responses in future interactions!"),
    s6)

/-- Embedding of `handleLearnFromInteraction`
(`src/tools/learn-from-interaction.ts`): validation errors are thrown
(`Except.error`, a protocol-level failure); on success the interaction is
pushed onto the history — note: directly, with no `pruneArray` eviction —
metrics are updated, and the feedback/context side effects fire.  `now`
stands for `Date.now()` and `timestamp` for `new Date().toISOString()`. -/
def handleLearnFromInteraction (interaction : JSValue) (now : Int) (timestamp : String)
    (s : ServerState) : Except String (ToolResult × ServerState) :=
  if truthy interaction = false then
    .error "Interaction object is required"
  else if truthy (getField interaction "userInput") = false ∨
      typeofStr (getField interaction "userInput") ≠ "string" then
    .error "Interaction must have valid userInput (string)"
  else if truthy (getField interaction "aiResponse") = false ∨
      typeofStr (getField interaction "aiResponse") ≠ "string" then
    .error "Interaction must have valid aiResponse (string)"
  else if isUndefined (getField interaction "success") = false ∧
      typeofStr (getField interaction "success") ≠ "boolean" then
    .error "Interaction success must be a boolean if provided"
  else
    let entry : InteractionEntry :=
      { fields := objFields interaction
        timestamp := timestamp
        id := "interaction_" ++ toString now }
    let s1 := { s with interactionHistory := s.interactionHistory ++ [entry] }
    let notFalse := ! isBoolFalse (getField interaction "success")
    let s2 := { s1 with performanceMetrics :=
      { s1.performanceMetrics with
        totalInteractions := s1.performanceMetrics.totalInteractions + 1
        successfulInteractions :=
          s1.performanceMetrics.successfulInteractions + (if notFalse then 1 else 0) } }
    let fb := getField interaction "userFeedback"
    match fb, truthy fb with
    | .vStr fs, _ =>
        let lower := fs.toLower
        let s3 := { s2 with feedbackData := s2.feedbackData ++
          [{ feedback := fs, timestamp := timestamp, relatedInteraction := interaction }] }
        let s4 :=
          if jsIncludes lower "good" || jsIncludes lower "great" then
            { s3 with knowledgeBase := { s3.knowledgeBase with facts :=
              s3.knowledgeBase.facts ++
                [{ id := "fact_" ++ toString now
                   content := "Successful interaction pattern: \""
                     ++ jsTemplate (getField interaction "userInput") ++ "\" -> \""
                     ++ jsTemplate (getField interaction "aiResponse") ++ "\""
                   confidence := 0.7
                   source := "user_feedback" }] } }
          else s3
        let s5 :=
          if jsIncludes lower "bad" || jsIncludes lower "improve" then
            { s4 with knowledgeBase := { s4.knowledgeBase with patterns :=
              s4.knowledgeBase.patterns ++
                [{ pattern := "avoid_response_type"
                   response_type := jsTemplate (getField interaction "aiResponse")
                   effectiveness := 0.2 }] } }
          else s4
        learnFinish interaction now
          ((if jsIncludes lower "good" || jsIncludes lower "great" then
              ["Positive feedback noted - reinforcing similar response patterns"] else [])
            ++ (if jsIncludes lower "bad" || jsIncludes lower "improve" then
              ["Constructive feedback noted - adjusting response patterns"] else []))
          s5
    | _, true =>
        -- a truthy non-string feedback would make `.toLowerCase()` throw
        .error "interaction.userFeedback.toLowerCase is not a function"
    | _, false =>
        learnFinish interaction now [] s2

/-- A minimal valid `learn_from_interaction` argument. -/
def learnSampleInteraction : JSValue :=
  .vObj [("userInput", .vStr "hi"), ("aiResponse", .vStr "hello")]

/-- One `learn_from_interaction` tool call with `learnSampleInteraction`,
as a total state transformer. -/
def learnCallStep (s : ServerState) : ServerState :=
  match handleLearnFromInteraction learnSampleInteraction 0 "t" s with
  | .ok (_, s') => s'
  | .error _ => s

/-- `ServerStateManager.addInteraction`: push, prune to the configured
maximum, then update the counters.  This is the bounded mutation path of the
state manager — which the tool handlers do not go through. -/
def addInteraction (s : ServerState) (entry : InteractionEntry) : ServerState :=
  { s with
    interactionHistory :=
      pruneArray (s.interactionHistory ++ [entry]) DEFAULT_CONFIG.maxHistorySize
    performanceMetrics :=
      { s.performanceMetrics with
        totalInteractions := s.performanceMetrics.totalInteractions + 1
        successfulInteractions :=
          s.performanceMetrics.successfulInteractions +
            (if truthy ((entry.fields.lookup "success").getD .vUndefined) then 1 else 0) } }

theorem pruneArray_length (l : List α) (m : Nat) :
    (pruneArray l m).length = min l.length m := by
  simp [pruneArray]
  omega

/-- The state manager's own mutation method never lets the history exceed
the configured cap. -/
theorem addInteraction_length_le (s : ServerState) (entry : InteractionEntry) :
    (addInteraction s entry).interactionHistory.length ≤ DEFAULT_CONFIG.maxHistorySize := by
  simp [addInteraction, pruneArray_length]

theorem learnCallStep_length (s : ServerState) :
    (learnCallStep s).interactionHistory.length = s.interactionHistory.length + 1 := by
  simp [learnCallStep, handleLearnFromInteraction, learnFinish, learnSampleInteraction,
    getField, List.lookup, truthy, typeofStr, isUndefined, isBoolFalse, objFields]

theorem learnCallStep_iterate_length (n : Nat) (s : ServerState) :
    (learnCallStep^[n] s).interactionHistory.length = s.interactionHistory.length + n := by
  induction n generalizing s with
  | zero => simp
  | succ k ih =>
      rw [Function.iterate_succ_apply, ih, learnCallStep_length]
      omega

/-- C2, on the code as shipped: 1001 consecutive valid
`learn_from_interaction` calls leave 1001 entries in the interaction
history — above the configured `maxHistorySize` of 1000 — because the tool
handlers push directly onto the state arrays and never invoke
`pruneArray`. -/
theorem interactionHistory_exceeds_configured_cap :
    (learnCallStep^[1001] (createInitialState 0)).interactionHistory.length = 1001 ∧
    DEFAULT_CONFIG.maxHistorySize
      < (learnCallStep^[1001] (createInitialState 0)).interactionHistory.length := by
  have h := learnCallStep_iterate_length 1001 (createInitialState 0)
  have h0 : (createInitialState 0).interactionHistory.length = 0 := rfl
  rw [h0] at h
  refine ⟨by omega, ?_⟩
  rw [h]
  norm_num [DEFAULT_CONFIG]

/-- The skip result of `handleAutoOptimize` (`src/tools/auto-optimize.ts`):
reports the next eligible time `lastRun + interval`.  `toISO` stands for
`new Date(ms).toISOString()`. -/
def skipResult (toISO : Int → String) (s : ServerState) : ToolResult :=
  createToolResult
    ("⏳ Auto-optimization skipped (run too recently)\nNext optimization: "
      ++ toISO (s.autoOptimization.lastRun + s.autoOptimization.interval)
      ++ "\nUse \"force: true\" to override")

/-- The body of `handleAutoOptimize` after the skip check: set `lastRun`,
analyze the metrics, flag improvements per priority, and apply the fixed-step
nudges when anything was flagged. -/
def runAutoOptimize (toISO : Int → String) (priority : String) (now : Int)
    (s : ServerState) : ToolResult × ServerState :=
  let cfg := { s.autoOptimization with lastRun := now }
  let successRate : ℚ :=
    if s.performanceMetrics.totalInteractions > 0 then
      (s.performanceMetrics.successfulInteractions : ℚ)
        / (s.performanceMetrics.totalInteractions : ℚ)
    else 0
  let totalToolUsage : ℚ :=
    (s.performanceMetrics.toolUsageCount.map (fun p => (p.2 : ℚ))).foldl (· + ·) 0
  let avgToolUsage : ℚ :=
    totalToolUsage / ((max s.performanceMetrics.totalInteractions 1 : Nat) : ℚ)
  let perfFocus := priority = "performance" ∨ priority = "balanced"
  let prodFocus := priority = "productivity" ∨ priority = "balanced"
  let optimizations : List String :=
    (if perfFocus ∧ successRate < s.autoOptimization.targetMetrics.minSuccessRate then
      ["🎯 Enhancing success rate through pattern analysis"] else [])
    ++ (if perfFocus ∧ avgToolUsage < s.autoOptimization.targetMetrics.minToolUsage then
      ["🛠️ Promoting tool usage through better recommendations"] else [])
    ++ (if prodFocus ∧ s.productivityMetrics.efficiencyScore < 0.85 then
      ["⚡ Streamlining response patterns for efficiency"] else [])
    ++ (if prodFocus ∧ s.performanceMetrics.productivityScore
          < s.autoOptimization.targetMetrics.targetProductivity then
      ["📈 Implementing productivity enhancement strategies"] else [])
  let improvements : List String :=
    (if perfFocus ∧ successRate < s.autoOptimization.targetMetrics.minSuccessRate then
      ["Increased pattern matching accuracy"] else [])
    ++ (if perfFocus ∧ avgToolUsage < s.autoOptimization.targetMetrics.minToolUsage then
      ["Enhanced tool suggestion algorithms"] else [])
    ++ (if prodFocus ∧ s.productivityMetrics.efficiencyScore < 0.85 then
      ["Faster response generation"] else [])
    ++ (if prodFocus ∧ s.performanceMetrics.productivityScore
          < s.autoOptimization.targetMetrics.targetProductivity then
      ["Better task completion tracking"] else [])
  let kb :=
    if optimizations ≠ [] then
      { s.knowledgeBase with facts := s.knowledgeBase.facts ++
        [{ id := "auto_opt_" ++ toString now
           content := "Auto-optimization applied: " ++ String.intercalate ", " optimizations
           confidence := 0.9
           source := "automatic_optimization" }] }
    else s.knowledgeBase
  let perf :=
    if optimizations ≠ [] then
      { s.performanceMetrics with
        productivityScore := min 1.0 (s.performanceMetrics.productivityScore + 0.05) }
    else s.performanceMetrics
  let pm :=
    if optimizations ≠ [] then
      { s.productivityMetrics with
        efficiencyScore := min 1.0 (s.productivityMetrics.efficiencyScore + 0.03) }
    else s.productivityMetrics
  (createToolResult
    ("🚀 Auto-Optimization Complete (" ++ priority ++ " priority)\n"
      ++ "\n📊 Current Metrics:"
      ++ "\n- Success rate: " ++ toFixed1 (successRate * 100) ++ "%"
      ++ "\n- Tool usage: " ++ toFixed1 (avgToolUsage * 100) ++ "%"
      ++ "\n- Productivity score: " ++ toFixed1 (perf.productivityScore * 100) ++ "%"
      ++ "\n- Efficiency score: " ++ toFixed1 (pm.efficiencyScore * 100) ++ "%"
      ++ "\n\n🔧 Optimizations Applied:\n"
      ++ (if optimizations ≠ [] then
            String.intercalate "\n" (optimizations.map (fun o => "• " ++ o))
          else "• No optimizations needed (metrics within targets)")
      ++ "\n\n✅ Improvements:\n"
      ++ (if improvements ≠ [] then
            String.intercalate "\n" (improvements.map (fun i => "• " ++ i))
          else "• System performing optimally")
      ++ "\n\n⏰ Next auto-optimization: " ++ toISO (now + s.autoOptimization.interval)),
   { s with autoOptimization := cfg, knowledgeBase := kb,
            performanceMetrics := perf, productivityMetrics := pm })

/-- Embedding of `handleAutoOptimize` (`src/tools/auto-optimize.ts`): skip —
with no mutation — unless `force` is set or the configured interval has
elapsed since `lastRun`. -/
def handleAutoOptimize (toISO : Int → String) (priority : String) (force : Bool)
    (now : Int) (s : ServerState) : ToolResult × ServerState :=
  if force = false ∧ now - s.autoOptimization.lastRun < s.autoOptimization.interval then
    (skipResult toISO s, s)
  else
    runAutoOptimize toISO priority now s

theorem runAutoOptimize_lastRun (toISO : Int → String) (priority : String)
    (now : Int) (s : ServerState) :
    (runAutoOptimize toISO priority now s).2.autoOptimization.lastRun = now := by
  simp only [runAutoOptimize]

theorem runAutoOptimize_interval (toISO : Int → String) (priority : String)
    (now : Int) (s : ServerState) :
    (runAutoOptimize toISO priority now s).2.autoOptimization.interval
      = s.autoOptimization.interval := by
  simp only [runAutoOptimize]

/-- C6: two `auto_optimize` calls at the same instant without `force`: the
second call returns exactly the skip result (which reports the next eligible
time) and leaves the state untouched; and with `force = true` the handler
always runs the optimization body — in particular `lastRun` is set —
regardless of the elapsed time. -/
theorem autoOptimize_immediate_second_skips_force_runs
    (toISO : Int → String) (p1 p2 : String) (now : Int) (s : ServerState)
    (h : 0 < s.autoOptimization.interval) :
    (handleAutoOptimize toISO p2 false now (handleAutoOptimize toISO p1 false now s).2
      = (skipResult toISO (handleAutoOptimize toISO p1 false now s).2,
         (handleAutoOptimize toISO p1 false now s).2)) ∧
    (∀ (p : String) (f : Int) (t : ServerState),
      handleAutoOptimize toISO p true f t = runAutoOptimize toISO p f t ∧
      (handleAutoOptimize toISO p true f t).2.autoOptimization.lastRun = f) := by
  constructor
  · by_cases hc : (false : Bool) = false ∧
        now - s.autoOptimization.lastRun < s.autoOptimization.interval
    · have h1 : handleAutoOptimize toISO p1 false now s = (skipResult toISO s, s) := by
        rw [handleAutoOptimize, if_pos hc]
      rw [h1]
      rw [handleAutoOptimize, if_pos hc]
    · have h1 : handleAutoOptimize toISO p1 false now s = runAutoOptimize toISO p1 now s := by
        rw [handleAutoOptimize, if_neg hc]
      rw [h1]
      have hc2 : (false : Bool) = false ∧
          now - (runAutoOptimize toISO p1 now s).2.autoOptimization.lastRun
            < (runAutoOptimize toISO p1 now s).2.autoOptimization.interval := by
        rw [runAutoOptimize_lastRun, runAutoOptimize_interval]
        exact ⟨rfl, by omega⟩
      rw [handleAutoOptimize, if_pos hc2]
  · intro p f t
    have hforce : ¬ ((true : Bool) = false ∧
        f - t.autoOptimization.lastRun < t.autoOptimization.interval) := by
      simp
    constructor
    · rw [handleAutoOptimize, if_neg hforce]
    · rw [handleAutoOptimize, if_neg hforce, runAutoOptimize_lastRun]

/-- Witness for C6 on the initial state at time 400000 (past the first
interval). -/
theorem autoOptimize_immediate_second_skips_force_runs_witness :
    0 < (createInitialState 0).autoOptimization.interval ∧
    ((handleAutoOptimize (fun _ => "") "balanced" false 400000
        (handleAutoOptimize (fun _ => "") "balanced" false 400000 (createInitialState 0)).2
      = (skipResult (fun _ => "")
          (handleAutoOptimize (fun _ => "") "balanced" false 400000 (createInitialState 0)).2,
         (handleAutoOptimize (fun _ => "") "balanced" false 400000 (createInitialState 0)).2)) ∧
      (∀ (p : String) (f : Int) (t : ServerState),
        handleAutoOptimize (fun _ => "") p true f t = runAutoOptimize (fun _ => "") p f t ∧
        (handleAutoOptimize (fun _ => "") p true f t).2.autoOptimization.lastRun = f)) := by
  refine ⟨by norm_num [createInitialState], ?_⟩
  exact autoOptimize_immediate_second_skips_force_runs (fun _ => "") "balanced" "balanced"
    400000 (createInitialState 0) (by norm_num [createInitialState])

/-- The allow-listed environment values exposed by `system_info`
(`safeEnv` in `src/tools/system-info.ts`). -/
structure SafeEnv where
  NODE_ENV : String
  TZ : String
deriving Repr, DecidableEq

/-- The process facts `handleSystemInfo` reads besides the environment:
platform, architecture, node version, uptime, memory usage, the Intl
time zone (the `TZ` fallback) and `process.versions`. -/
structure SysBase where
  platform : String
  arch : String
  nodeVersion : String
  uptime : ℚ
  memory : List (String × Nat)
  intlTimeZone : String
  versions : List (String × String)
deriving Repr, DecidableEq

/-- The info record built by `handleSystemInfo`; `safeEnv` and `versions`
are only present at detail level `full`. -/
structure SystemInfo where
  platform : String
  arch : String
  nodeVersion : String
  uptime : ℚ
  memory : List (String × Nat)
  safeEnv : Option SafeEnv
  versions : Option (List (String × String))
deriving Repr, DecidableEq

/-- A plain rendering of the info record into the report text (standing in
for `JSON.stringify(info, null, 2)`). -/
def renderSystemInfo (info : SystemInfo) : String :=
  "platform: " ++ info.platform
    ++ "\narch: " ++ info.arch
    ++ "\nnodeVersion: " ++ info.nodeVersion
    ++ "\nuptime: " ++ toString info.uptime
    ++ "\nmemory: " ++ String.intercalate ", "
        (info.memory.map (fun p => p.1 ++ "=" ++ toString p.2))
    ++ (match info.safeEnv with
        | some e => "\nsafeEnv: NODE_ENV=" ++ e.NODE_ENV ++ ", TZ=" ++ e.TZ
        | none => "")
    ++ (match info.versions with
        | some vs => "\nversions: " ++ String.intercalate ", "
            (vs.map (fun p => p.1 ++ "=" ++ p.2))
        | none => "")

/-- Embedding of `handleSystemInfo` (`src/tools/system-info.ts`): at detail
level `full` (and only then) the report additionally carries `safeEnv` —
exactly the two allow-listed variables `NODE_ENV` and `TZ`, with their
fallbacks — and `process.versions`.  `env` is the process environment as a
partial map. -/
def handleSystemInfo (detail : String) (base : SysBase)
    (env : String → Option String) : ToolResult :=
  let info : SystemInfo :=
    { platform := base.platform
      arch := base.arch
      nodeVersion := base.nodeVersion
      uptime := base.uptime
      memory := base.memory
      safeEnv :=
        if detail = "full" then
          some { NODE_ENV := (env "NODE_ENV").getD "unknown"
                 TZ := (env "TZ").getD base.intlTimeZone }
        else none
      versions := if detail = "full" then some base.versions else none }
  createToolResult
    ("System Information (" ++ detail ++ "):\n" ++ renderSystemInfo info)

/-- C8: `system_info` output is independent of every environment variable
other than the allow-listed `NODE_ENV` and `TZ`: two runs in environments
that agree on those two variables produce identical output, at every detail
level. -/
theorem systemInfo_env_noninterference
    (detail : String) (base : SysBase) (env1 env2 : String → Option String)
    (hN : env1 "NODE_ENV" = env2 "NODE_ENV") (hT : env1 "TZ" = env2 "TZ") :
    handleSystemInfo detail base env1 = handleSystemInfo detail base env2 := by
  simp [handleSystemInfo, hN, hT]

/-- Witness for C8: an environment holding a secret versus an empty one. -/
theorem systemInfo_env_noninterference_witness :
    ((fun k => if k = "AWS_SECRET_KEY" then some "hunter2" else none) "NODE_ENV"
        = (fun (_ : String) => (none : Option String)) "NODE_ENV") ∧
    ((fun k => if k = "AWS_SECRET_KEY" then some "hunter2" else none) "TZ"
        = (fun (_ : String) => (none : Option String)) "TZ") ∧
    ∀ (detail : String) (base : SysBase),
      handleSystemInfo detail base
          (fun k => if k = "AWS_SECRET_KEY" then some "hunter2" else none)
        = handleSystemInfo detail base (fun _ => none) := by
  refine ⟨by decide, by decide, fun detail base => ?_⟩
  exact systemInfo_env_noninterference detail base _ _ (by decide) (by decide)

/-- Every `toolEffectiveness` entry of a state has positive uses. -/
def allUsesPositive (m : List (String × ToolStats)) : Prop :=
  ∀ p ∈ m, 0 < p.2.uses

/-- C9: every per-tool ratio in the reports is guarded against zero uses —
with zero uses the `formatToolStats` line, the `get_metrics` line and the
`analyze_efficiency` line all print the `N/A` sentinel, and the legacy
`analyzeEfficiency` prints the numeric sentinel `0`; moreover
`trackToolUsage` preserves the invariant that every recorded tool has
positive uses, so a tracked tool is never reported with a zero divisor. -/
theorem toolStats_zero_uses_sentinel (tool : String) (stats : ToolStats)
    (h : stats.uses = 0) :
    toolStatRate stats = "N/A" ∧
    toolStatLine tool stats = tool ++ ": N/A% success rate" ∧
    metricsStatRate stats = "N/A" ∧
    metricsStatLine tool stats
      = tool ++ ": " ++ toString stats.success ++ "/0 (N/A% success)" ∧
    analyzeStatRate stats = "N/A" ∧
    legacySuccessRate stats = 0 ∧
    (∀ (s : ServerState) (name : String) (succ : Bool),
      allUsesPositive s.productivityMetrics.toolEffectiveness →
      allUsesPositive (trackToolUsage s name succ).productivityMetrics.toolEffectiveness) := by
  refine ⟨?_, ?_, ?_, ?_, ?_, ?_, ?_⟩
  · simp [toolStatRate, h]
  · simp [toolStatLine, toolStatRate, h, String.append_assoc]
  · simp [metricsStatRate, h]
  · simp [metricsStatLine, metricsStatRate, h, String.append_assoc,
      show toString (0 : Nat) = "0" from rfl]
  · simp [analyzeStatRate, h]
  · simp [legacySuccessRate, h]
  · intro s name succ hall
    intro p hp
    simp only [trackToolUsage, updateToolEffectiveness] at hp
    by_cases hsome : (s.productivityMetrics.toolEffectiveness.lookup name).isSome
    · rw [if_pos hsome] at hp
      obtain ⟨q, hq, hfq⟩ := List.mem_map.mp hp
      by_cases heq : q.1 = name
      · rw [if_pos heq] at hfq
        have := hall q hq
        rw [← hfq]
        simp
      · rw [if_neg heq] at hfq
        exact hfq ▸ hall q hq
    · rw [if_neg hsome] at hp
      rcases List.mem_append.mp hp with hmem | hmem
      · exact hall p hmem
      · simp at hmem
        rw [hmem]
        simp

/-- Witness for C9 at a zero-uses entry. -/
theorem toolStats_zero_uses_sentinel_witness :
    ({ uses := 0, success := 0 } : ToolStats).uses = 0 ∧
    (toolStatRate { uses := 0, success := 0 } = "N/A" ∧
      toolStatLine "echo" { uses := 0, success := 0 } = "echo" ++ ": N/A% success rate" ∧
      metricsStatRate { uses := 0, success := 0 } = "N/A" ∧
      metricsStatLine "echo" { uses := 0, success := 0 }
        = "echo" ++ ": " ++ toString ({ uses := 0, success := 0 } : ToolStats).success
            ++ "/0 (N/A% success)" ∧
      analyzeStatRate { uses := 0, success := 0 } = "N/A" ∧
      legacySuccessRate { uses := 0, success := 0 } = 0 ∧
      (∀ (s : ServerState) (name : String) (succ : Bool),
        allUsesPositive s.productivityMetrics.toolEffectiveness →
        allUsesPositive (trackToolUsage s name succ).productivityMetrics.toolEffectiveness)) :=
  ⟨rfl, toolStats_zero_uses_sentinel "echo" { uses := 0, success := 0 } rfl⟩

/-- The scheduler bookkeeping of the legacy server (`index.js`,
`performAutoOptimization`): the enabled flag and the dedicated
success/failure counters kept on `performanceMetrics`. -/
structure AutoOptScheduler where
  enabled : Bool
  optimizationSuccessCount : Nat
  optimizationFailureCount : Nat
deriving Repr, DecidableEq

/-- What one invocation of the `auto_optimize` handler did from the
scheduler's point of view: it returned a result (`ok`, with `skipped = true`
for the run-too-recently result) or it threw. -/
inductive AttemptResult where
  | ok (skipped : Bool)
  | threw (msg : String)
deriving Repr, DecidableEq

/-- Embedding of `performAutoOptimization` (legacy `index.js`): return
immediately when disabled (the optimize logic is not invoked — the returned
flag records whether the handler ran); count any returned result as a
success; on a throw, bump the failure counter and disable once it exceeds 5.
The returned `Bool` is true iff the handler was invoked. -/
def performAutoOptimization (s : AutoOptScheduler) (r : AttemptResult) :
    AutoOptScheduler × Bool :=
  if s.enabled = false then
    (s, false)
  else
    match r with
    | .ok _ =>
        ({ s with optimizationSuccessCount := s.optimizationSuccessCount + 1 }, true)
    | .threw _ =>
        let fc := s.optimizationFailureCount + 1
        ({ s with
            optimizationFailureCount := fc
            enabled := if fc > 5 then false else s.enabled }, true)

/-- Embedding of `performAutoOptimization` in the TypeScript server
(`src/index.ts`): same shape, but the circuit breaker reads the global
`performanceMetrics.errorCount` (bumped by `recordError` on every failure)
and disables once it exceeds 5.  State is `(enabled, errorCount)`. -/
def performAutoOptimizationTS (enabled : Bool) (errorCount : Nat) (r : AttemptResult) :
    (Bool × Nat) × Bool :=
  if enabled = false then
    ((enabled, errorCount), false)
  else
    match r with
    | .ok _ => ((enabled, errorCount), true)
    | .threw _ =>
        let ec := errorCount + 1
        ((if ec > 5 then false else enabled, ec), true)

/-- One failing scheduler attempt (legacy counters). -/
def failStep (m : String) (s : AutoOptScheduler) : AutoOptScheduler :=
  (performAutoOptimization s (.threw m)).1

/-- One failing scheduler attempt (TypeScript variant). -/
def tsFailStep (m : String) (p : Bool × Nat) : Bool × Nat :=
  (performAutoOptimizationTS p.1 p.2 (.threw m)).1

/-- C1: the auto-optimization circuit breaker.  A disabled scheduler never
invokes the optimize logic and never changes state; no step ever re-enables
a disabled scheduler (one-way for the process lifetime); a returned
"skipped too soon" result is not counted as a failure; and starting from an
enabled scheduler with a zero failure counter, the scheduler is still
enabled after 5 consecutive failing attempts and disabled by the 6th.  The
same holds for the TypeScript variant driven by the global error counter. -/
theorem autoOptimization_circuit_breaker (s0 : AutoOptScheduler) (m : String)
    (henabled : s0.enabled = true) (hfc : s0.optimizationFailureCount = 0) :
    (∀ (s : AutoOptScheduler) (r : AttemptResult), s.enabled = false →
        performAutoOptimization s r = (s, false)) ∧
    (∀ (s : AutoOptScheduler) (r : AttemptResult),
        (performAutoOptimization s r).1.enabled = true → s.enabled = true) ∧
    (∀ s : AutoOptScheduler,
        (performAutoOptimization s (.ok true)).1.optimizationFailureCount
          = s.optimizationFailureCount) ∧
    ((failStep m)^[5] s0).enabled = true ∧
    ((failStep m)^[6] s0).enabled = false ∧
    (∀ (ec : Nat) (r : AttemptResult),
        performAutoOptimizationTS false ec r = ((false, ec), false)) ∧
    (∀ (en : Bool) (ec : Nat) (r : AttemptResult),
        (performAutoOptimizationTS en ec r).1.1 = true → en = true) ∧
    (∀ ec : Nat, (performAutoOptimizationTS true ec (.ok true)).1.2 = ec) ∧
    ((tsFailStep m)^[5] (true, 0)).1 = true ∧
    ((tsFailStep m)^[6] (true, 0)).1 = false := by
  obtain ⟨en, sc, fc⟩ := s0
  simp only [AutoOptScheduler.enabled] at henabled
  simp only [AutoOptScheduler.optimizationFailureCount] at hfc
  subst henabled
  subst hfc
  refine ⟨?_, ?_, ?_, ?_, ?_, ?_, ?_, ?_, ?_, ?_⟩
  · intro s r hs
    simp [performAutoOptimization, hs]
  · intro s r hen
    by_cases hs : s.enabled = false
    · simp [performAutoOptimization, hs] at hen
    · simpa using hs
  · intro s
    by_cases hs : s.enabled = false
    · simp [performAutoOptimization, hs]
    · simp [performAutoOptimization, hs]
  · show ((failStep m)^[5] ⟨true, sc, 0⟩).enabled = true
    simp [Function.iterate_succ_apply, failStep, performAutoOptimization]
  · show ((failStep m)^[6] ⟨true, sc, 0⟩).enabled = false
    simp [Function.iterate_succ_apply, failStep, performAutoOptimization]
  · intro ec r
    simp [performAutoOptimizationTS]
  · intro en ec r hen
    by_cases hs : en = false
    · simp [performAutoOptimizationTS, hs] at hen
    · simpa using hs
  · intro ec
    simp [performAutoOptimizationTS]
  · simp [Function.iterate_succ_apply, tsFailStep, performAutoOptimizationTS]
  · simp [Function.iterate_succ_apply, tsFailStep, performAutoOptimizationTS]

/-- Witness for C1 at the freshly started scheduler. -/
theorem autoOptimization_circuit_breaker_witness :
    ((⟨true, 0, 0⟩ : AutoOptScheduler).enabled = true ∧
      (⟨true, 0, 0⟩ : AutoOptScheduler).optimizationFailureCount = 0) ∧
    ((∀ (s : AutoOptScheduler) (r : AttemptResult), s.enabled = false →
        performAutoOptimization s r = (s, false)) ∧
      (∀ (s : AutoOptScheduler) (r : AttemptResult),
        (performAutoOptimization s r).1.enabled = true → s.enabled = true) ∧
      (∀ s : AutoOptScheduler,
        (performAutoOptimization s (.ok true)).1.optimizationFailureCount
          = s.optimizationFailureCount) ∧
      ((failStep "boom")^[5] (⟨true, 0, 0⟩ : AutoOptScheduler)).enabled = true ∧
      ((failStep "boom")^[6] (⟨true, 0, 0⟩ : AutoOptScheduler)).enabled = false ∧
      (∀ (ec : Nat) (r : AttemptResult),
        performAutoOptimizationTS false ec r = ((false, ec), false)) ∧
      (∀ (en : Bool) (ec : Nat) (r : AttemptResult),
        (performAutoOptimizationTS en ec r).1.1 = true → en = true) ∧
      (∀ ec : Nat, (performAutoOptimizationTS true ec (.ok true)).1.2 = ec) ∧
      ((tsFailStep "boom")^[5] (true, 0)).1 = true ∧
      ((tsFailStep "boom")^[6] (true, 0)).1 = false) :=
  ⟨⟨rfl, rfl⟩, autoOptimization_circuit_breaker ⟨true, 0, 0⟩ "boom" rfl rfl⟩

end OkComputer
